import Mathlib

/-!
Shallow embedding of the qlight-ctrl repository (Rust): the channel/mode
data model and report serialization from `src/qlight.rs`, the CLI command
parsing and resolution from `src/main.rs`, and the OSC command handlers,
router and packet loop from `crates/qlight-osc/src/main.rs`.

Machine bytes are modelled as `Nat` (every value written is < 256 by
construction), reports as `List Nat` of length 65, Rust `String` as Lean
`String`, and Rust `Result`/`Option` as `Except`/`Option`.  Rust's
`str::to_lowercase` is modelled per-character with `Char.toLower`
(accurate on the ASCII tokens this program compares against).
-/

namespace Qlight

/-- `Color` from `src/qlight.rs`: the five channels, with their wire codes
given by `Color.code` below (Rust assigns the discriminants 2..6). -/
inductive Color where
  | Red
  | Yellow
  | Green
  | Blue
  | White
deriving DecidableEq, Repr, Fintype

/-- The numeric discriminant of each `Color` (`Red = 2, ..., White = 6`). -/
def Color.code : Color → Nat
  | .Red => 2
  | .Yellow => 3
  | .Green => 4
  | .Blue => 5
  | .White => 6

/-- The canonical lowercase name of each color, as matched by the parser. -/
def Color.name : Color → String
  | .Red => "red"
  | .Yellow => "yellow"
  | .Green => "green"
  | .Blue => "blue"
  | .White => "white"

/-- `LightMode` from `src/qlight.rs` with discriminants `Off=0, On=1,
Blink=2, Ignore=3` given by `LightMode.code`. -/
inductive LightMode where
  | Off
  | On
  | Blink
  | Ignore
deriving DecidableEq, Repr, Fintype

/-- The numeric discriminant of each `LightMode`. -/
def LightMode.code : LightMode → Nat
  | .Off => 0
  | .On => 1
  | .Blink => 2
  | .Ignore => 3

/-- The canonical lowercase name of each `LightMode`. -/
def LightMode.name : LightMode → String
  | .Off => "off"
  | .On => "on"
  | .Blink => "blink"
  | .Ignore => "ignore"

/-- `impl Default for LightMode`: the default is `Ignore`. -/
def LightMode.dfl : LightMode := .Ignore

/-- `SoundMode` from `src/qlight.rs` with discriminants `Off=0,
Noise1..Noise5=1..5, Ignore=6` given by `SoundMode.code`. -/
inductive SoundMode where
  | Off
  | Noise1
  | Noise2
  | Noise3
  | Noise4
  | Noise5
  | Ignore
deriving DecidableEq, Repr

/-- The numeric discriminant of each `SoundMode`. -/
def SoundMode.code : SoundMode → Nat
  | .Off => 0
  | .Noise1 => 1
  | .Noise2 => 2
  | .Noise3 => 3
  | .Noise4 => 4
  | .Noise5 => 5
  | .Ignore => 6

/-- `impl Default for SoundMode`: the default is `Ignore`. -/
def SoundMode.dfl : SoundMode := .Ignore

/-- `REPORT_ID` constant from `src/qlight.rs`. -/
def REPORT_ID : Nat := 0x57

/-- `LightCommandSet` from `src/qlight.rs`: one `LightMode` per color
channel plus a `SoundMode`. -/
structure LightCommandSet where
  red : LightMode
  yellow : LightMode
  green : LightMode
  blue : LightMode
  white : LightMode
  sound : SoundMode
deriving DecidableEq, Repr

/-- `#[derive(Default)]` on `LightCommandSet`: every channel takes
`LightMode::default()` (= `Ignore`) and the sound takes
`SoundMode::default()` (= `Ignore`). -/
def LightCommandSet.dfl : LightCommandSet :=
  { red := LightMode.dfl, yellow := LightMode.dfl, green := LightMode.dfl,
    blue := LightMode.dfl, white := LightMode.dfl, sound := SoundMode.dfl }

/-- `LightCommandSet::all_off`: every channel `Off`, sound `Off`. -/
def LightCommandSet.all_off : LightCommandSet :=
  { red := .Off, yellow := .Off, green := .Off,
    blue := .Off, white := .Off, sound := .Off }

/-- `LightCommandSet::set`: overwrite the one channel named by `color`
with `light_mode` (Rust mutates in place; modelled functionally). -/
def LightCommandSet.set (s : LightCommandSet) (color : Color)
    (light_mode : LightMode) : LightCommandSet :=
  match color with
  | .Red => { s with red := light_mode }
  | .Yellow => { s with yellow := light_mode }
  | .Green => { s with green := light_mode }
  | .Blue => { s with blue := light_mode }
  | .White => { s with white := light_mode }

/-- Read the channel of `s` named by a color (the struct field access the
Rust code performs in `to_report`); used to state frame properties. -/
def LightCommandSet.channel (s : LightCommandSet) : Color → LightMode
  | .Red => s.red
  | .Yellow => s.yellow
  | .Green => s.green
  | .Blue => s.blue
  | .White => s.white

/-- `LightCommandSet::to_report`: a 65-byte buffer initialized to zero,
with byte 0 = `REPORT_ID`, bytes 2..6 = the five channel codes in struct
order, byte 7 = the sound code; byte 1 and bytes 8..64 keep their zero
initialization. -/
def LightCommandSet.to_report (s : LightCommandSet) : List Nat :=
  [REPORT_ID, 0, s.red.code, s.yellow.code, s.green.code,
   s.blue.code, s.white.code, s.sound.code] ++ List.replicate 57 0

/-- The report byte offset of each color channel in `to_report`
(`data[2] = red`, ..., `data[6] = white`). -/
def reportOffset : Color → Nat
  | .Red => 2
  | .Yellow => 3
  | .Green => 4
  | .Blue => 5
  | .White => 6

/-- Model of Rust `str::to_lowercase` (per-character ASCII lowering;
exact for the ASCII tokens this program matches and interpolates). -/
def lowerString (s : String) : String := ⟨s.data.map Char.toLower⟩

/-- `ParseError` from `src/qlight.rs`: a message string; `Display` for it
prints the message unchanged. -/
structure ParseError where
  msg : String
deriving DecidableEq, Repr

/-- `impl TryFrom<&str> for Color`: lowercase the token, match it against
the five canonical names, otherwise report a `ParseError` interpolating
the lowercased token (`other` in the Rust `match` binds the lowercased
string). -/
def Color.try_from (value : String) : Except ParseError Color :=
  let v := lowerString value
  if v = "red" then .ok .Red
  else if v = "yellow" then .ok .Yellow
  else if v = "green" then .ok .Green
  else if v = "blue" then .ok .Blue
  else if v = "white" then .ok .White
  else .error ⟨"Expected one of [red, yellow, green, blue, white], got " ++ v⟩

/-- `impl TryFrom<&str> for LightMode`: lowercase the token, match it
against `on`/`off`/`blink` (never `ignore`), otherwise report a
`ParseError` interpolating the lowercased token. -/
def LightMode.try_from (value : String) : Except ParseError LightMode :=
  let v := lowerString value
  if v = "on" then .ok .On
  else if v = "off" then .ok .Off
  else if v = "blink" then .ok .Blink
  else .error ⟨"Expected one of [on, off, blink] in command, got " ++ v⟩

/-- Rust `str::split_once(c)` on a list of characters: split at the first
occurrence of `c`, returning the parts before and after it, or `none`
when `c` does not occur. -/
def splitOnceList (c : Char) : List Char → Option (List Char × List Char)
  | [] => none
  | x :: xs =>
    if x = c then some ([], xs)
    else
      match splitOnceList c xs with
      | none => none
      | some (a, b) => some (x :: a, b)

/-- Rust `str::split_once(c)` lifted to strings. -/
def splitOnce (s : String) (c : Char) : Option (String × String) :=
  (splitOnceList c s.data).map fun p => (⟨p.1⟩, ⟨p.2⟩)

/-- `parse_command` from `src/main.rs`: split the token on the first `:`;
with no separator fail with the format message; otherwise parse the left
side as a `Color` and the right side as a `LightMode` (each `ParseError`
propagates via `?`, modelled as its message string). -/
def parse_command (s : String) : Except String (Color × LightMode) :=
  match splitOnce s ':' with
  | none =>
    .error ("Expected format of [red,yellow,green,blue,white]:[on,off,blink] got " ++ s)
  | some (colorStr, modeStr) =>
    match Color.try_from colorStr with
    | .error e => .error e.msg
    | .ok color =>
      match LightMode.try_from modeStr with
      | .error e => .error e.msg
      | .ok light_mode => .ok (color, light_mode)

/-- The command-set computation of `set` in `src/main.rs`: clap parses
every positional token with `parse_command` (any failure fails the whole
invocation), then the accepted `(color, mode)` pairs are folded
left-to-right with `LightCommandSet::set` starting from `all_off()` when
`--reset` is given and `default()` otherwise. -/
def resolveCli (reset : Bool) (tokens : List String) :
    Except String LightCommandSet :=
  match tokens.mapM parse_command with
  | .error e => .error e
  | .ok commands =>
    .ok (commands.foldl (fun acc p => acc.set p.1 p.2)
      (if reset then LightCommandSet.all_off else LightCommandSet.dfl))

/-- `rosc::OscType`, restricted to the shape this program inspects: an
`Int` argument carries its 32-bit value (modelled as `Int`; only the
comparisons with 0, 1, 2 matter), and the remaining variants are
non-integer arguments whose payloads the program never reads. -/
inductive OscType where
  | Int (i : Int)
  | Float
  | Str (s : String)
  | Bool (b : Bool)
  | Other
deriving DecidableEq, Repr

/-- `rosc::OscMessage`: an address string plus a typed argument list. -/
structure OscMessage where
  addr : String
  args : List OscType
deriving DecidableEq, Repr

/-- `rosc::OscPacket`: either a single message or a bundle (bundles are
dropped unhandled, so their contents are not modelled). -/
inductive OscPacket where
  | Message (msg : OscMessage)
  | Bundle
deriving DecidableEq, Repr

/-- The first `match` of `QlightOsc::handle_color_command`: lowercase the
bound `color` path parameter and match it against the five color names;
an unknown color is logged and yields `None` (an early return). -/
def oscColorOf (color_str : String) : Option Color :=
  let v := lowerString color_str
  if v = "red" then some .Red
  else if v = "yellow" then some .Yellow
  else if v = "green" then some .Green
  else if v = "blue" then some .Blue
  else if v = "white" then some .White
  else none

/-- The second `match` of `QlightOsc::handle_color_command`: the argument
slice must be exactly `[Int(0)]`, `[Int(1)]` or `[Int(2)]`, giving
`Off`/`On`/`Blink`; any other argument shape is logged and yields `None`
(an early return). -/
def oscLightmodeOf (args : List OscType) : Option LightMode :=
  match args with
  | [OscType.Int 0] => some .Off
  | [OscType.Int 1] => some .On
  | [OscType.Int 2] => some .Blink
  | _ => none

/-- `QlightOsc::handle_color_command` from `crates/qlight-osc/src/main.rs`:
resolve the color parameter (`oscColorOf`) and the argument list
(`oscLightmodeOf`), propagating each early `None` return; on success a
fresh `LightCommandSet::default()` gets that one channel `set`.  The
`_id` parameter is unused and `msg.addr` appears only in log output. -/
def handle_color_command (msg : OscMessage) (_id : String)
    (color_str : String) : Option LightCommandSet :=
  match oscColorOf color_str with
  | none => none
  | some color =>
    match oscLightmodeOf msg.args with
    | none => none
    | some lightmode => some (LightCommandSet.dfl.set color lightmode)

/-- `QlightOsc::handle_reset_command`: ignores the message and the bound
`id`; always `Some(LightCommandSet::all_off())`. -/
def handle_reset_command (_msg : OscMessage) (_id : String) :
    Option LightCommandSet :=
  some LightCommandSet.all_off

/-- The two route kinds registered in `QlightOsc::new` together with the
parameters the router binds for each. -/
inductive RouteMatch where
  | color (id : String) (color : String)
  | reset (id : String)
deriving DecidableEq, Repr

/-- Split a list of characters on every occurrence of `c` (the segment
decomposition underlying path matching). -/
def splitCharList (c : Char) : List Char → List (List Char)
  | [] => [[]]
  | x :: xs =>
    if x = c then [] :: splitCharList c xs
    else
      match splitCharList c xs with
      | [] => [[x]]
      | a :: rest => (x :: a) :: rest

/-- Split a path string into its `/`-separated segments. -/
def pathSegments (s : String) : List String :=
  (splitCharList '/' s.data).map fun l => ⟨l⟩

/-- The `matchit` router built in `QlightOsc::new` with the two templates
`/lights/{id}/{color}` and `/reset/{id}`: a `{name}` segment matches any
single non-empty path segment and binds its text; anything else is a
routing miss. -/
def routerAt (addr : String) : Option RouteMatch :=
  match pathSegments addr with
  | ["", "lights", id, color] =>
    if id ≠ "" ∧ color ≠ "" then some (.color id color) else none
  | ["", "reset", id] =>
    if id ≠ "" then some (.reset id) else none
  | _ => none

/-- A HID transport outcome: the device write result (`Ok` carries the
byte count `hidapi` returns) and the device open result, supplied as
oracles so that `handle_packet` stays a pure function of them. -/
structure DeviceIo where
  openResult : Except String Unit
  writeResult : LightCommandSet → Except String Nat

/-- `QlightOsc::handle_packet`: route the message address; on a `Color`
match run `handle_color_command` and, when it yields a command set, open
the device lazily — an open failure is only logged (`Ok(())`), but a
write failure propagates through `?` as the return value; a `Reset` match
behaves the same with `handle_reset_command`; routing misses and bundles
are logged and return `Ok(())`. -/
def handle_packet (io : DeviceIo) (packet : OscPacket) :
    Except String Unit :=
  match packet with
  | .Message msg =>
    match routerAt msg.addr with
    | some (.color id color_str) =>
      match handle_color_command msg id color_str with
      | some lcs =>
        match io.openResult with
        | .ok _ =>
          match io.writeResult lcs with
          | .ok _ => .ok ()
          | .error e => .error e
        | .error _ => .ok ()
      | none => .ok ()
    | some (.reset id) =>
      match handle_reset_command msg id with
      | some lcs =>
        match io.openResult with
        | .ok _ =>
          match io.writeResult lcs with
          | .ok _ => .ok ()
          | .error e => .error e
        | .error _ => .ok ()
      | none => .ok ()
    | none => .ok ()
  | .Bundle => .ok ()

/-- The receive loop of `main` in `crates/qlight-osc/src/main.rs`, over a
list of decoded packets: each iteration runs `handle_packet(packet)?`, so
an `Err` from `handle_packet` propagates out of `main` and no further
packet is processed. -/
def serverLoop (io : DeviceIo) : List OscPacket → Except String Unit
  | [] => .ok ()
  | p :: ps =>
    match handle_packet io p with
    | .ok _ => serverLoop io ps
    | .error e => .error e

/-- The device-write loop at the end of `set` in `src/main.rs`: one
`light.update(&lightset)?` per resolved light, each outcome supplied as
an oracle; the first `Err` propagates and aborts the remaining writes. -/
def cliWriteAll : List (Except String Nat) → Except String Unit
  | [] => .ok ()
  | r :: rs =>
    match r with
    | .ok _ => cliWriteAll rs
    | .error e => .error e

/-- Spec-side description (for comparison with `handle_color_command`):
"the color path parameter parses (case-insensitively) to one of the five
colors" — the color whose canonical name the lowercased parameter
equals, if any. -/
def specColorParse (s : String) : Option Color :=
  [Color.Red, Color.Yellow, Color.Green, Color.Blue, Color.White].find?
    fun c => lowerString s == c.name

/-- Spec-side description (for comparison with `handle_color_command`):
"the argument list is exactly one integer with value 0, 1, or 2 (mapped
respectively to Off, On, Blink)". -/
def specModeOfArgs (args : List OscType) : Option LightMode :=
  match args with
  | [OscType.Int i] =>
    if i = 0 then some .Off
    else if i = 1 then some .On
    else if i = 2 then some .Blink
    else none
  | _ => none

end Qlight

namespace Qlight

/-- C1: for every `LightCommandSet`, `to_report` produces exactly 65
bytes with byte 0 = 0x57, byte 1 = 0, bytes 2–6 the numeric mode codes of
the red, yellow, green, blue, white channels in that order, byte 7 the
numeric sound-mode code, and bytes 8–64 all zero. -/
theorem to_report_layout (s : LightCommandSet) :
    s.to_report.length = 65
    ∧ s.to_report.getD 0 999 = 0x57
    ∧ s.to_report.getD 1 999 = 0
    ∧ s.to_report.getD 2 999 = s.red.code
    ∧ s.to_report.getD 3 999 = s.yellow.code
    ∧ s.to_report.getD 4 999 = s.green.code
    ∧ s.to_report.getD 5 999 = s.blue.code
    ∧ s.to_report.getD 6 999 = s.white.code
    ∧ s.to_report.getD 7 999 = s.sound.code
    ∧ ∀ i, 8 ≤ i → i ≤ 64 → s.to_report.getD i 999 = 0 := by
  refine ⟨?_, rfl, rfl, rfl, rfl, rfl, rfl, rfl, rfl, ?_⟩
  · simp [LightCommandSet.to_report]
  · intro i h1 h2
    interval_cases i <;> rfl

/-- Witness for `to_report_layout` at a concrete command set and index. -/
theorem to_report_layout_witness :
    LightCommandSet.all_off.to_report.getD 42 999 = 0 :=
  (to_report_layout LightCommandSet.all_off).2.2.2.2.2.2.2.2.2 42
    (by decide) (by decide)

/-- C4: `default()` serializes with bytes 2–6 all equal to 3 (Ignore) and
byte 7 equal to 6 (sound Ignore); `all_off()` serializes with bytes 2–7
all zero. -/
theorem default_and_all_off_reports :
    (∀ i, 2 ≤ i → i ≤ 6 → LightCommandSet.dfl.to_report.getD i 999 = 3)
    ∧ LightCommandSet.dfl.to_report.getD 7 999 = 6
    ∧ ∀ i, 2 ≤ i → i ≤ 7 → LightCommandSet.all_off.to_report.getD i 999 = 0 := by
  refine ⟨?_, rfl, ?_⟩ <;> intro i h1 h2 <;> interval_cases i <;> rfl

/-- Witness for `default_and_all_off_reports` at concrete indices. -/
theorem default_and_all_off_reports_witness :
    LightCommandSet.dfl.to_report.getD 6 999 = 3
    ∧ LightCommandSet.all_off.to_report.getD 7 999 = 0 :=
  ⟨default_and_all_off_reports.1 6 (by decide) (by decide),
   default_and_all_off_reports.2.2 7 (by decide) (by decide)⟩

/-- C5: `set(color, mode)` assigns `mode` to exactly that color's channel
and leaves the other four channels and the sound mode unchanged; a later
`set` for the same color fully overwrites an earlier one, and only the
last assigned mode for a color appears in the serialized report. -/
theorem set_frame (s : LightCommandSet) (c c' : Color) (m m' : LightMode) :
    (s.set c m).channel c = m
    ∧ (c' ≠ c → (s.set c m).channel c' = s.channel c')
    ∧ (s.set c m).sound = s.sound
    ∧ (s.set c m).set c m' = s.set c m'
    ∧ ((s.set c m).set c m').to_report.getD (reportOffset c) 999 = m'.code := by
  cases c <;> cases c' <;>
    exact ⟨rfl, fun h => by first | rfl | exact absurd rfl h, rfl, rfl, rfl⟩

/-- Witness for `set_frame`: setting red leaves the blue channel of a
concrete command set unchanged. -/
theorem set_frame_witness :
    (LightCommandSet.all_off.set .Red .On).channel .Blue =
      LightCommandSet.all_off.channel .Blue :=
  (set_frame LightCommandSet.all_off .Red .Blue .On .Blink).2.1 (by decide)

/-- C8: `handle_reset_command` returns `Some(all_off())` regardless of
the message and its arguments: every channel `Off` and sound `Off`. -/
theorem handle_reset_command_spec (msg : OscMessage) (id : String) :
    handle_reset_command msg id = some LightCommandSet.all_off
    ∧ (∀ c, LightCommandSet.all_off.channel c = .Off)
    ∧ LightCommandSet.all_off.sound = .Off :=
  ⟨rfl, fun c => by cases c <;> rfl, rfl⟩

/-- C10: the bound `{id}` path parameter (and the address it came from)
has no effect on the resolved command set: two messages with the same
arguments and the same color segment produce identical results from
`handle_color_command`, and any two messages produce identical results
from `handle_reset_command`, whatever their id segments. -/
theorem id_segment_irrelevant (addr₁ addr₂ : String) (args : List OscType)
    (id₁ id₂ color : String) :
    handle_color_command ⟨addr₁, args⟩ id₁ color =
      handle_color_command ⟨addr₂, args⟩ id₂ color
    ∧ handle_reset_command ⟨addr₁, args⟩ id₁ =
      handle_reset_command ⟨addr₂, args⟩ id₂ :=
  ⟨rfl, rfl⟩

/-- The inline color `match` of `handle_color_command` computes exactly
the spec-side case-insensitive color lookup. -/
theorem oscColorOf_eq_spec (s : String) : oscColorOf s = specColorParse s := by
  by_cases h1 : lowerString s = "red" <;>
  by_cases h2 : lowerString s = "yellow" <;>
  by_cases h3 : lowerString s = "green" <;>
  by_cases h4 : lowerString s = "blue" <;>
  by_cases h5 : lowerString s = "white" <;>
  simp_all [oscColorOf, specColorParse, List.find?_cons, List.find?_nil, Color.name]

/-- The inline argument `match` of `handle_color_command` computes
exactly the spec-side single-integer-argument mapping. -/
theorem oscLightmodeOf_eq_spec (args : List OscType) :
    oscLightmodeOf args = specModeOfArgs args := by
  unfold oscLightmodeOf
  split
  · simp [specModeOfArgs]
  · simp [specModeOfArgs]
  · simp [specModeOfArgs]
  · rename_i h0 h1 h2
    unfold specModeOfArgs
    split
    · rename_i i
      split_ifs with hi0 hi1 hi2
      · exact h0 (by rw [hi0])
      · exact h1 (by rw [hi1])
      · exact h2 (by rw [hi2])
      · rfl
    · rfl

/-- C2: `handle_color_command` returns `Some` exactly when the color path
parameter parses case-insensitively to one of the five colors and the
argument list is exactly one integer with value 0, 1 or 2 (mapped to
Off, On, Blink); on success the result is a default command set with
that one channel set, and every other shape yields `None`. -/
theorem handle_color_command_spec (msg : OscMessage) (_id color_str : String) :
    handle_color_command msg _id color_str =
      match specColorParse color_str, specModeOfArgs msg.args with
      | some c, some m => some (LightCommandSet.dfl.set c m)
      | _, _ => none := by
  unfold handle_color_command
  rw [oscColorOf_eq_spec, oscLightmodeOf_eq_spec]
  cases specColorParse color_str <;> cases specModeOfArgs msg.args <;> rfl

/-- C6 counterexample: for the rejected token `"PURPLE"` the error
message interpolates the lowercased token `purple`, so it does not name
the rejected token itself. -/
theorem color_try_from_message_counterexample :
    Color.try_from "PURPLE" =
      .error ⟨"Expected one of [red, yellow, green, blue, white], got purple"⟩
    ∧ ¬ ("PURPLE".data <:+:
        "Expected one of [red, yellow, green, blue, white], got purple".data) :=
  ⟨rfl, by decide⟩

/-- C6 (amended): `Color::try_from` succeeds iff the lowercased string is
one of the five color names, yielding the corresponding value; every
other string fails with a `ParseError` whose message names exactly the
five valid options and the lowercased form of the rejected token. -/
theorem color_try_from_spec (s : String) :
    (∀ c, Color.try_from s = .ok c ↔ lowerString s = c.name)
    ∧ ((∀ c : Color, lowerString s ≠ c.name) →
        Color.try_from s =
          .error ⟨"Expected one of [red, yellow, green, blue, white], got " ++
            lowerString s⟩)
    ∧ (∀ c : Color, c.name.data <:+:
        ("Expected one of [red, yellow, green, blue, white], got " ++
          lowerString s).data)
    ∧ (lowerString s).data <:+:
        ("Expected one of [red, yellow, green, blue, white], got " ++
          lowerString s).data := by
  refine ⟨?_, ?_, ?_, ?_⟩
  · intro c
    simp only [Color.try_from]
    split_ifs with h1 h2 h3 h4 h5 <;> cases c <;> simp_all [Color.name]
  · intro h
    simp only [Color.try_from]
    split_ifs with h1 h2 h3 h4 h5
    · exact absurd h1 (h .Red)
    · exact absurd h2 (h .Yellow)
    · exact absurd h3 (h .Green)
    · exact absurd h4 (h .Blue)
    · exact absurd h5 (h .White)
    · rfl
  · intro c
    have h1 : c.name.data <:+:
        ("Expected one of [red, yellow, green, blue, white], got " : String).data := by
      cases c <;> decide
    have h2 : ("Expected one of [red, yellow, green, blue, white], got " : String).data <+:
        ("Expected one of [red, yellow, green, blue, white], got " ++
          lowerString s).data := by
      rw [String.data_append]
      exact List.prefix_append _ _
    exact h1.trans h2.isInfix
  · rw [String.data_append]
    exact (List.suffix_append _ _).isInfix

/-- Witness for `color_try_from_spec` at the concrete tokens `BLUE` and
`tEaL`. -/
theorem color_try_from_spec_witness :
    Color.try_from "BLUE" = .ok Color.Blue
    ∧ Color.try_from "tEaL" =
      .error ⟨"Expected one of [red, yellow, green, blue, white], got " ++
        lowerString "tEaL"⟩ :=
  ⟨((color_try_from_spec "BLUE").1 Color.Blue).mpr rfl,
   (color_try_from_spec "tEaL").2.1 (by intro c; cases c <;> decide)⟩

/-- C7: `LightMode::try_from` succeeds iff the lowercased string is one
of on, off, blink; `ignore` is never accepted in any casing; every other
string fails with a `ParseError` whose message names exactly the three
valid options. -/
theorem lightmode_try_from_spec (s : String) :
    (∀ m, LightMode.try_from s = .ok m ↔ m ≠ .Ignore ∧ lowerString s = m.name)
    ∧ LightMode.try_from s ≠ .ok .Ignore
    ∧ ((∀ m : LightMode, m = .Ignore ∨ lowerString s ≠ m.name) →
        LightMode.try_from s =
          .error ⟨"Expected one of [on, off, blink] in command, got " ++
            lowerString s⟩)
    ∧ (∀ m : LightMode, m ≠ .Ignore → m.name.data <:+:
        ("Expected one of [on, off, blink] in command, got " ++
          lowerString s).data) := by
  refine ⟨?_, ?_, ?_, ?_⟩
  · intro m
    simp only [LightMode.try_from]
    split_ifs with h1 h2 h3 <;> cases m <;> simp_all [LightMode.name]
  · intro h
    simp only [LightMode.try_from] at h
    split_ifs at h <;> simp_all
  · intro h
    simp only [LightMode.try_from]
    split_ifs with h1 h2 h3
    · rcases h .On with h' | h'
      · exact absurd h' (by decide)
      · exact absurd h1 h'
    · rcases h .Off with h' | h'
      · exact absurd h' (by decide)
      · exact absurd h2 h'
    · rcases h .Blink with h' | h'
      · exact absurd h' (by decide)
      · exact absurd h3 h'
    · rfl
  · intro m hm
    have h1 : m.name.data <:+:
        ("Expected one of [on, off, blink] in command, got " : String).data := by
      cases m
      · decide
      · decide
      · decide
      · exact absurd rfl hm
    have h2 : ("Expected one of [on, off, blink] in command, got " : String).data <+:
        ("Expected one of [on, off, blink] in command, got " ++
          lowerString s).data := by
      rw [String.data_append]
      exact List.prefix_append _ _
    exact h1.trans h2.isInfix

/-- Witness for `lightmode_try_from_spec` at the concrete tokens `BLINK`
and `Ignore`. -/
theorem lightmode_try_from_spec_witness :
    LightMode.try_from "BLINK" = .ok LightMode.Blink
    ∧ LightMode.try_from "Ignore" =
      .error ⟨"Expected one of [on, off, blink] in command, got " ++
        lowerString "Ignore"⟩ :=
  ⟨((lightmode_try_from_spec "BLINK").1 LightMode.Blink).mpr ⟨by decide, rfl⟩,
   (lightmode_try_from_spec "Ignore").2.2.1
     (by intro m; cases m <;> first | exact .inl rfl | exact .inr (by decide))⟩

/-- C3: a CLI token is accepted iff it contains `:` and, splitting on the
first `:`, both sides parse as a color and a mode; a missing separator
fails the whole invocation with the format message; accepted tokens are
folded left-to-right via `set` starting from `all_off()` under the reset
flag and `default()` otherwise. -/
theorem cli_parse_and_fold (s : String) (reset : Bool) (tokens : List String) :
    (splitOnce s ':' = none →
      parse_command s =
        .error ("Expected format of [red,yellow,green,blue,white]:[on,off,blink] got " ++ s))
    ∧ (∀ p : Color × LightMode, parse_command s = .ok p ↔
        ∃ a b, splitOnce s ':' = some (a, b) ∧
          Color.try_from a = .ok p.1 ∧ LightMode.try_from b = .ok p.2)
    ∧ (∀ commands, tokens.mapM parse_command = .ok commands →
        resolveCli reset tokens =
          .ok (commands.foldl (fun acc p => acc.set p.1 p.2)
            (if reset then LightCommandSet.all_off else LightCommandSet.dfl)))
    ∧ (∀ e, tokens.mapM parse_command = .error e →
        resolveCli reset tokens = .error e) := by
  refine ⟨?_, ?_, ?_, ?_⟩
  · intro h
    unfold parse_command
    rw [h]
  · intro p
    constructor
    · intro h
      unfold parse_command at h
      rcases hsp : splitOnce s ':' with _ | ⟨a, b⟩ <;> simp only [hsp] at h
      · exact absurd h (by simp)
      · rcases hc : Color.try_from a with e | c <;> simp only [hc] at h
        · exact absurd h (by simp)
        · rcases hm : LightMode.try_from b with e | m <;> simp only [hm] at h
          · exact absurd h (by simp)
          · injection h with h'
            subst h'
            exact ⟨a, b, rfl, hc, hm⟩
    · rintro ⟨a, b, hsp, hc, hm⟩
      unfold parse_command
      simp only [hsp, hc, hm]
  · intro commands h
    unfold resolveCli
    rw [h]
  · intro e h
    unfold resolveCli
    rw [h]

/-- Witness for `cli_parse_and_fold` at concrete tokens. -/
theorem cli_parse_and_fold_witness :
    parse_command "WHITE:Blink" = .ok (Color.White, LightMode.Blink)
    ∧ resolveCli true ["red:on"] =
      .ok ([((Color.Red, LightMode.On) : Color × LightMode)].foldl
        (fun acc p => acc.set p.1 p.2)
        (if true then LightCommandSet.all_off else LightCommandSet.dfl))
    ∧ parse_command "nope" =
      .error "Expected format of [red,yellow,green,blue,white]:[on,off,blink] got nope" :=
  ⟨((cli_parse_and_fold "WHITE:Blink" false []).2.1 (Color.White, LightMode.Blink)).mpr
     ⟨"WHITE", "Blink", rfl, rfl, rfl⟩,
   (cli_parse_and_fold "x" true ["red:on"]).2.2.1 [(Color.Red, LightMode.On)] rfl,
   (cli_parse_and_fold "nope" false []).1 rfl⟩

/-- C9 counterexample: with the device open and the write failing, a
well-formed routed color message makes `handle_packet` return the error,
and the receive loop stops without processing the next packet — a write
failure is fatal for the network server, not non-fatal as claimed. -/
theorem write_failure_counterexample :
    handle_packet ⟨.ok (), fun _ => .error "write failed"⟩
        (.Message ⟨"/lights/1/red", [.Int 1]⟩) = .error "write failed"
    ∧ serverLoop ⟨.ok (), fun _ => .error "write failed"⟩
        [.Message ⟨"/lights/1/red", [.Int 1]⟩, .Message ⟨"/reset/1", []⟩] =
      .error "write failed" :=
  ⟨rfl, rfl⟩

/-- C9 (amended): a device write failure is surfaced to the caller and is
fatal on both surfaces: in the network server it propagates out of
`handle_packet` and terminates the receive loop (only a device-open
failure is logged and non-fatal), and in the CLI it propagates and aborts
the remaining device writes. -/
theorem device_write_failure_fatal (e oe : String) (msg : OscMessage)
    (id color_str : String) (rest : List OscPacket)
    (w : LightCommandSet → Except String Nat) (p : OscPacket)
    (n : Nat) (rs : List (Except String Nat)) :
    (routerAt msg.addr = some (.color id color_str) →
      (handle_color_command msg id color_str).isSome = true →
        handle_packet ⟨.ok (), fun _ => .error e⟩ (.Message msg) = .error e
        ∧ serverLoop ⟨.ok (), fun _ => .error e⟩ (.Message msg :: rest) = .error e)
    ∧ (routerAt msg.addr = some (.reset id) →
        handle_packet ⟨.ok (), fun _ => .error e⟩ (.Message msg) = .error e
        ∧ serverLoop ⟨.ok (), fun _ => .error e⟩ (.Message msg :: rest) = .error e)
    ∧ handle_packet ⟨.error oe, w⟩ p = .ok ()
    ∧ cliWriteAll (List.replicate n (.ok 65) ++ .error e :: rs) = .error e := by
  refine ⟨?_, ?_, ?_, ?_⟩
  · intro hr hs
    rcases hcc : handle_color_command msg id color_str with _ | lcs
    · rw [hcc] at hs
      exact absurd hs (by simp)
    · have hp : handle_packet ⟨.ok (), fun _ => .error e⟩ (.Message msg) = .error e := by
        unfold handle_packet
        simp only [hr, hcc]
      refine ⟨hp, ?_⟩
      unfold serverLoop
      rw [hp]
  · intro hr
    have hp : handle_packet ⟨.ok (), fun _ => .error e⟩ (.Message msg) = .error e := by
      unfold handle_packet
      simp only [hr, handle_reset_command]
    refine ⟨hp, ?_⟩
    unfold serverLoop
    rw [hp]
  · rcases p with msg' | _
    · unfold handle_packet
      rcases hr : routerAt msg'.addr with _ | r
      · simp only [hr]
      · rcases r with ⟨i, c⟩ | i
        · rcases hcc : handle_color_command msg' i c with _ | lcs <;>
            simp only [hr, hcc]
        · simp only [hr, handle_reset_command]
    · rfl
  · induction n with
    | zero => rfl
    | succ k ih =>
      simpa [List.replicate_succ, cliWriteAll] using ih

/-- Witness for `device_write_failure_fatal` at a concrete reset message
with a failing write. -/
theorem device_write_failure_fatal_witness :
    handle_packet ⟨.ok (), fun _ => .error "io"⟩
        (.Message ⟨"/reset/9", [.Float]⟩) = .error "io" :=
  ((device_write_failure_fatal "io" "open-error" ⟨"/reset/9", [.Float]⟩ "9" "red" []
      (fun _ => .ok 65) .Bundle 0 []).2.1 rfl).1

end Qlight
